import Mathlib

/-!
Verification of the CAN `Message` value type (`can/message.py`).

Shallow embedding conventions:
* `bytearray` payloads are `List (Fin 256)` (a Python `bytearray` holds
  integers in `0..255`).
* Python `None`-able parameters are `Option`s.
* The `timestamp` float is idealized as an exact rational `ℚ`; no claim
  depends on binary floating-point artifacts.
* `channel` may be any Python object; it is modeled as `Option String`
  (only `is None` tests, `=`/`!=`, `str`/`repr` formatting are applied to it
  in the source).
* Fallible Python operations (raising) return `Except PyErr`.
-/

/-- The Python exceptions raised (or claimed to be raised) by the source. -/
inductive PyErr where
  | typeError (msg : String)
  | valueError (msg : String)
  | nameError (msg : String)
  deriving DecidableEq

/-- The `Message` object state after `__init__` has run: the eleven public
attributes plus the deprecated `id_type` alias, exactly as assigned in
`Message.__init__` (`can/message.py` lines 46-73). -/
structure Message where
  timestamp : ℚ
  arbitration_id : Nat
  id_type : Bool
  is_extended_id : Bool
  is_remote_frame : Bool
  is_error_frame : Bool
  channel : Option String
  is_fd : Bool
  bitrate_switch : Bool
  error_state_indicator : Bool
  data : List (Fin 256)
  dlc : Nat
  deriving DecidableEq

/-- The attribute assignments and normalization of `Message.__init__`
(lines 46-73): `id_type` and `is_extended_id` are both set from the
`extended_id` argument; the payload becomes empty when `data` is `None` or
`is_remote_frame` holds, and is otherwise the supplied byte sequence; `dlc`
defaults to the payload length when `None` and is stored unchanged
otherwise.  The `data` argument models an input that is convertible to a
byte sequence (an inconvertible input raises `TypeError` at line 68, a path
outside the claims under proof). -/
def Message.initFields (timestamp : ℚ) (arbitration_id : Nat) (extended_id : Bool)
    (is_remote_frame : Bool) (is_error_frame : Bool) (channel : Option String)
    (dlc : Option Nat) (data : Option (List (Fin 256)))
    (is_fd : Bool) (bitrate_switch : Bool) (error_state_indicator : Bool) :
    Message :=
  let payload : List (Fin 256) :=
    match data with
    | none => []
    | some bs => if is_remote_frame then [] else bs
  { timestamp := timestamp
    arbitration_id := arbitration_id
    id_type := extended_id
    is_extended_id := extended_id
    is_remote_frame := is_remote_frame
    is_error_frame := is_error_frame
    channel := channel
    is_fd := is_fd
    bitrate_switch := bitrate_switch
    error_state_indicator := error_state_indicator
    data := payload
    dlc := dlc.getD payload.length }

/-- `Message._check` (lines 198-207).  Its first statement evaluates the bare
name `is_fd` in the condition `if is_fd and self.dlc > 64:`; `is_fd` is not a
local variable, not a module-level global (the module only does
`import logging`), and not a builtin, so Python raises
`NameError: name 'is_fd' is not defined` before any validation can run
(the same would then happen for `logger`, which is also never defined).
The body is otherwise only the `# TODO add checks` warning stubs. -/
def Message.check (_m : Message) : Except PyErr Unit :=
  .error (.nameError "name \x27is_fd\x27 is not defined")

/-- The whole of `Message.__init__` (lines 28-76): assign and normalize the
fields, then run `self._check()` when `check` is true. -/
def Message.init (timestamp : ℚ) (arbitration_id : Nat) (extended_id : Bool)
    (is_remote_frame : Bool) (is_error_frame : Bool) (channel : Option String)
    (dlc : Option Nat) (data : Option (List (Fin 256)))
    (is_fd : Bool) (bitrate_switch : Bool) (error_state_indicator : Bool)
    (check : Bool) : Except PyErr Message :=
  let m := Message.initFields timestamp arbitration_id extended_id
    is_remote_frame is_error_frame channel dlc data
    is_fd bitrate_switch error_state_indicator
  if check then (Message.check m).map fun _ => m else .ok m

/-- `Message.__eq__` (lines 152-168) on two `Message`s: conjunction of the
ten field comparisons, with the `timestamp` comparison commented out in the
source. -/
def Message.eq (a b : Message) : Bool :=
  a.arbitration_id == b.arbitration_id &&
  a.is_extended_id == b.is_extended_id &&
  a.is_remote_frame == b.is_remote_frame &&
  a.is_error_frame == b.is_error_frame &&
  a.channel == b.channel &&
  a.dlc == b.dlc &&
  a.data == b.data &&
  a.is_fd == b.is_fd &&
  a.bitrate_switch == b.bitrate_switch &&
  a.error_state_indicator == b.error_state_indicator

/-- Python `hash` of an `int` (claims only need that it succeeds). -/
def hashNat (n : Nat) : Except PyErr Int :=
  .ok (n % (2 ^ 61 - 1))

/-- Python `hash` of a `bool` (`hash(True) = 1`, `hash(False) = 0`). -/
def hashBool (b : Bool) : Except PyErr Int :=
  .ok (if b then 1 else 0)

/-- Python `hash` of a `bytearray`: `bytearray` is an unhashable (mutable)
type, so hashing it raises `TypeError: unhashable type: 'bytearray'`. -/
def hashBytearray (_bs : List (Fin 256)) : Except PyErr Int :=
  .error (.typeError "unhashable type: \x27bytearray\x27")

/-- Stand-in for CPython's tuple-hash combiner.  Its exact value is
immaterial to the claims: `Message.pyHash` aborts before reaching it,
because hashing the tuple must first hash every element and `self.data` is
an unhashable `bytearray`. -/
def combineHashes (hs : List Int) : Int :=
  hs.foldl (fun acc h => acc * 31 + h) 5381

/-- `Message.__hash__` (lines 176-187): `hash` of the 8-tuple
`(arbitration_id, is_extended_id, dlc, data, is_fd, bitrate_switch,
is_remote_frame, is_error_frame)` — note `channel` and
`error_state_indicator` do not appear, and `timestamp` is excluded by the
comment.  Python hashes the tuple elements in order; `self.data` is a
`bytearray`, which is unhashable. -/
def Message.pyHash (m : Message) : Except PyErr Int := do
  let h1 ← hashNat m.arbitration_id
  let h2 ← hashBool m.is_extended_id
  let h3 ← hashNat m.dlc
  let h4 ← hashBytearray m.data
  let h5 ← hashBool m.is_fd
  let h6 ← hashBool m.bitrate_switch
  let h7 ← hashBool m.is_remote_frame
  let h8 ← hashBool m.is_error_frame
  pure (combineHashes [h1, h2, h3, h4, h5, h6, h7, h8])

/-- `str.rjust(w, " ")`: pad on the left with spaces to width `w`. -/
def rjust (w : Nat) (s : String) : String :=
  String.mk (List.replicate (w - s.length) ' ') ++ s

/-- `str.ljust(w, " ")`: pad on the right with spaces to width `w`. -/
def ljust (w : Nat) (s : String) : String :=
  s ++ String.mk (List.replicate (w - s.length) ' ')

/-- Zero padding on the left to width `w`, as a format spec such as
`08x` applies to the hex digits. -/
def padZeros (w : Nat) (s : String) : String :=
  String.mk (List.replicate (w - s.length) '0') ++ s

/-- Lowercase hexadecimal digits of a natural number (the `x` format type). -/
def natToHex (n : Nat) : String :=
  String.mk (Nat.toDigits 16 n)

/-- Python format `{0:0wx}` applied to a nonnegative int: lowercase hex,
zero-padded to width `w`. -/
def hexPad (w : Nat) (n : Nat) : String :=
  padZeros w (natToHex n)

/-- Python format `{0:02x}` applied to one byte of a `bytearray`: exactly
two lowercase hex digits, since the value is below 256. -/
def hexByte (b : Fin 256) : String :=
  String.mk [Nat.digitChar (b.val / 16), Nat.digitChar (b.val % 16)]

/-- Python format `{:#x}` applied to a nonnegative int: `0x` plus lowercase
hex digits. -/
def hexLit (n : Nat) : String :=
  "0x" ++ natToHex n

/-- Python format `{:#02x}` applied to one byte: the minimum width 2 counts
the `0x` prefix, which alone already has length 2, so no zero padding is
ever added and the result is `0x` plus the unpadded hex digits. -/
def hexLitByte (b : Fin 256) : String :=
  "0x" ++ natToHex b.val

/-- Python `str` of a `bool`. -/
def pyBool (b : Bool) : String :=
  if b then "True" else "False"

/-- Python `str`/`repr` of the `timestamp` float, idealized on exact
rationals: integral values render as Python floats do (`0.0`, `1.5` is not
integral); non-integral values use the rational rendering, a display detail
no claim under proof depends on. -/
def pyFloatRepr (q : ℚ) : String :=
  if q.den = 1 then toString q.num ++ ".0" else toString q

/-- Python `repr` of a `str` channel, for channels without characters that
`repr` would escape: the string wrapped in single quotes. -/
def pyStrRepr (s : String) : String :=
  "\x27" ++ s ++ "\x27"

/-- Python format `{0:>15.6f}`-style fixed-point rendering with 6 decimal
places, idealized on exact rationals (rounding to nearest, ties away from
zero; binary floating-point rounding artifacts are not modeled — no claim
under proof depends on the timestamp field's digits). -/
def formatFixed6 (q : ℚ) : String :=
  let scaled : Nat := (Int.floor (|q| * 1000000 + 1 / 2)).toNat
  (if q < 0 then "-" else "") ++
    toString (scaled / 1000000) ++ "." ++ padZeros 6 (toString (scaled % 1000000))

/-- The first field of `Message.__str__` (line 79):
`"Timestamp: {0:>15.6f}".format(self.timestamp)`. -/
def tsField (m : Message) : String :=
  "Timestamp: " ++ rjust 15 (formatFixed6 m.timestamp)

/-- The arbitration-id field of `Message.__str__` (lines 80-84): `ID: ` plus
8 zero-padded hex digits when `is_extended_id`, else 4, the whole field
right-justified to width 12. -/
def aidField (m : Message) : String :=
  rjust 12 (if m.is_extended_id then "ID: " ++ hexPad 8 m.arbitration_id
            else "ID: " ++ hexPad 4 m.arbitration_id)

/-- The flag field of `Message.__str__` (lines 86-93): six space-joined
tokens in fixed order. -/
def flagField (m : Message) : String :=
  String.intercalate " "
    [if m.is_extended_id then "X" else "S",
     if m.is_error_frame then "E" else " ",
     if m.is_remote_frame then "R" else " ",
     if m.is_fd then "F" else " ",
     if m.bitrate_switch then "BS" else "  ",
     if m.error_state_indicator then "EI" else "  "]

/-- The DLC field of `Message.__str__` (line 97). -/
def dlcField (m : Message) : String :=
  "DLC: " ++ toString m.dlc

/-- The `data_strings` list of `Message.__str__` (lines 98-101): the loop
`for index in range(0, min(self.dlc, len(self.data)))` formats
`self.data[index]` with `{0:02x}`; every index stays below the payload
length.  (The `self.data is not None` guard at line 99 is always true: the
constructor always assigns a `bytearray`.) -/
def dataStrings (m : Message) : List String :=
  (List.range (min m.dlc m.data.length)).map fun index => hexByte (m.data.getD index 0)

/-- 24 spaces, the payload field when no bytes are shown (line 105). -/
def spaces24 : String :=
  String.mk (List.replicate 24 ' ')

/-- The payload field of `Message.__str__` (lines 102-105): the space-joined
hex byte groups left-justified to width 24 when `data_strings` is nonempty,
else 24 spaces. -/
def payloadField (m : Message) : String :=
  if (dataStrings m).isEmpty then spaces24
  else ljust 24 (String.intercalate " " (dataStrings m))

/-- `bytearray.isalnum` for one byte: ASCII digit, uppercase or lowercase
letter. -/
def isAlnumByte (b : Fin 256) : Bool :=
  (48 ≤ b.val && b.val ≤ 57) || (65 ≤ b.val && b.val ≤ 90) || (97 ≤ b.val && b.val ≤ 122)

/-- Python `bytearray.isalnum()`: true iff the sequence is nonempty and all
bytes are ASCII alphanumeric; the empty `bytearray` is not alphanumeric. -/
def pyIsAlnum (bs : List (Fin 256)) : Bool :=
  !bs.isEmpty && bs.all isAlnumByte

/-- `bytes.decode('utf-8')` at the call site of line 109, which is guarded
by `isalnum`: the bytes are ASCII alphanumeric, where UTF-8 decoding is the
byte-to-character map and never raises (the `except UnicodeError` at
line 110 is unreachable). -/
def decodeAscii (bs : List (Fin 256)) : String :=
  String.mk (bs.map fun b => Char.ofNat b.val)

/-- The conditional quoted-payload field of `Message.__str__`
(lines 107-111): appended only when `self.data.isalnum()`. -/
def alnumFields (m : Message) : List String :=
  if pyIsAlnum m.data then ["\x27" ++ decodeAscii m.data ++ "\x27"] else []

/-- The conditional channel field of `Message.__str__` (lines 113-114). -/
def channelFields (m : Message) : List String :=
  match m.channel with
  | some c => ["Channel: " ++ c]
  | none => []

/-- The complete `field_strings` list built by `Message.__str__`. -/
def strFields (m : Message) : List String :=
  [tsField m, aidField m, flagField m, dlcField m, payloadField m]
    ++ alnumFields m ++ channelFields m

/-- `Message.__str__` (lines 78-116): the field strings joined with four
spaces, stripped of leading and trailing whitespace. -/
def Message.str (m : Message) : String :=
  (String.intercalate "    " (strFields m)).trim

/-- `Message.__format__` (lines 189-193): the display string for an empty
format spec, `ValueError` otherwise. -/
def Message.format (m : Message) (format_spec : String) : Except PyErr String :=
  if format_spec = "" then .ok m.str
  else .error (.valueError "non empty format_specs are not supported")

/-- The conditional channel argument of `Message.__repr__` (lines 138-139):
`"channel={!r}"` formats the channel with `repr`. -/
def channelArgs (m : Message) : List String :=
  match m.channel with
  | some c => ["channel=" ++ pyStrRepr c]
  | none => []

/-- The `args` list built by `Message.__repr__` (lines 127-148): timestamp,
arbitration id as a hex literal and `extended_id` always; `is_remote_frame`
and `is_error_frame` only when true; `channel` only when set; then `dlc` and
the full data sequence as hex byte literals; and the three FD flags only
when `is_fd` is true. -/
def reprArgs (m : Message) : List String :=
  ["timestamp=" ++ pyFloatRepr m.timestamp,
   "arbitration_id=" ++ hexLit m.arbitration_id,
   "extended_id=" ++ pyBool m.is_extended_id]
  ++ (if m.is_remote_frame then ["is_remote_frame=" ++ pyBool m.is_remote_frame] else [])
  ++ (if m.is_error_frame then ["is_error_frame=" ++ pyBool m.is_error_frame] else [])
  ++ channelArgs m
  ++ ["dlc=" ++ toString m.dlc,
      "data=[" ++ String.intercalate ", " (m.data.map hexLitByte) ++ "]"]
  ++ (if m.is_fd then
        ["is_fd=True",
         "bitrate_switch=" ++ pyBool m.bitrate_switch,
         "error_state_indicator=" ++ pyBool m.error_state_indicator]
      else [])

/-- `Message.__repr__` (lines 127-150). -/
def Message.reprStr (m : Message) : String :=
  "can.Message(" ++ String.intercalate ", " (reprArgs m) ++ ")"

/-- Substring test: `pat` occurs in `s` iff the character sequence of `pat`
is a contiguous infix of the character sequence of `s`. -/
def strContains (s pat : String) : Bool :=
  decide (List.IsInfix pat.data s.data)

/-- Lowercase hexadecimal digit characters. -/
def isLowerHex (c : Char) : Bool :=
  ('0' ≤ c && c ≤ '9') || ('a' ≤ c && c ≤ 'f')

theorem digitChar_lowerHex : ∀ n < 16, isLowerHex (Nat.digitChar n) = true := by
  decide

theorem hexByte_length (b : Fin 256) : (hexByte b).length = 2 :=
  rfl

theorem hexByte_chars (b : Fin 256) : ∀ c ∈ (hexByte b).data, isLowerHex c = true := by
  intro c hc
  have hdata : (hexByte b).data = [Nat.digitChar (b.val / 16), Nat.digitChar (b.val % 16)] := rfl
  rw [hdata] at hc
  have h1 : b.val / 16 < 16 := by omega
  have h2 : b.val % 16 < 16 := Nat.mod_lt _ (by norm_num)
  rcases List.mem_cons.mp hc with h | h
  · exact h ▸ digitChar_lowerHex _ h1
  · rcases List.mem_cons.mp h with h | h
    · exact h ▸ digitChar_lowerHex _ h2
    · exact absurd h (List.not_mem_nil c)

theorem Message.eq_iff (a b : Message) :
    Message.eq a b = true ↔
      (a.arbitration_id = b.arbitration_id ∧ a.is_extended_id = b.is_extended_id ∧
       a.is_remote_frame = b.is_remote_frame ∧ a.is_error_frame = b.is_error_frame ∧
       a.channel = b.channel ∧ a.dlc = b.dlc ∧ a.data = b.data ∧
       a.is_fd = b.is_fd ∧ a.bitrate_switch = b.bitrate_switch ∧
       a.error_state_indicator = b.error_state_indicator) := by
  simp only [Message.eq, Bool.and_eq_true, beq_iff_eq]
  tauto

/-- Example message: arbitration id 1, payload bytes 1 and 2, timestamp 1. -/
def msgA : Message :=
  Message.initFields 1 0x1 true false false none none (some [1, 2]) false false false

/-- Same content as `msgA` but timestamp 2. -/
def msgB : Message :=
  Message.initFields 2 0x1 true false false none none (some [1, 2]) false false false

/-- C1: the claim states that hashing two equal Frames succeeds and yields
equal values over the equality field set.  On the code, `Message.__hash__`
never succeeds at all: the hashed tuple contains the `bytearray` payload
`self.data`, which is unhashable, so Python raises
`TypeError: unhashable type: 'bytearray'` for every message (additionally,
the hashed tuple omits `channel` and `error_state_indicator`, which the
equality uses). -/
theorem message_hash_always_raises (m : Message) :
    Message.pyHash m = .error (.typeError "unhashable type: \x27bytearray\x27") :=
  rfl

/-- C2: with `check=True` and both `is_remote_frame` and `is_error_frame`
true, `Message.__init__` does not raise the documented `ValueError`: the
`_check` body evaluates the undefined name `is_fd` and raises `NameError`
(and contains no remote/error exclusivity check at all).  With
`check=False`, construction succeeds for every such flag combination. -/
theorem check_construction_raises_nameError (ts : ℚ) (aid : Nat) (ext : Bool)
    (ch : Option String) (dlc : Option Nat) (data : Option (List (Fin 256)))
    (fd bs esi : Bool) :
    Message.init ts aid ext true true ch dlc data fd bs esi true
        = .error (.nameError "name \x27is_fd\x27 is not defined") ∧
    Message.init ts aid ext true true ch dlc data fd bs esi false
        = .ok (Message.initFields ts aid ext true true ch dlc data fd bs esi) :=
  ⟨rfl, rfl⟩

/-- C3: two messages are equal under `Message.__eq__` iff the ten listed
fields agree; `timestamp` is excluded, so a message equals its own
timestamp-modified copy; and the relation is reflexive, symmetric and
transitive. -/
theorem message_eq_iff_fields_and_equivalence (a b c : Message) :
    (Message.eq a b = true ↔
      (a.arbitration_id = b.arbitration_id ∧ a.is_extended_id = b.is_extended_id ∧
       a.is_remote_frame = b.is_remote_frame ∧ a.is_error_frame = b.is_error_frame ∧
       a.channel = b.channel ∧ a.dlc = b.dlc ∧ a.data = b.data ∧
       a.is_fd = b.is_fd ∧ a.bitrate_switch = b.bitrate_switch ∧
       a.error_state_indicator = b.error_state_indicator)) ∧
    Message.eq a a = true ∧
    Message.eq a { a with timestamp := b.timestamp } = true ∧
    (Message.eq a b = true → Message.eq b a = true) ∧
    (Message.eq a b = true → Message.eq b c = true → Message.eq a c = true) := by
  refine ⟨Message.eq_iff a b, ?_, ?_, ?_, ?_⟩
  · exact (Message.eq_iff a a).mpr ⟨rfl, rfl, rfl, rfl, rfl, rfl, rfl, rfl, rfl, rfl⟩
  · exact (Message.eq_iff _ _).mpr ⟨rfl, rfl, rfl, rfl, rfl, rfl, rfl, rfl, rfl, rfl⟩
  · intro h
    obtain ⟨h1, h2, h3, h4, h5, h6, h7, h8, h9, h10⟩ := (Message.eq_iff a b).mp h
    exact (Message.eq_iff b a).mpr
      ⟨h1.symm, h2.symm, h3.symm, h4.symm, h5.symm, h6.symm, h7.symm, h8.symm,
       h9.symm, h10.symm⟩
  · intro hab hbc
    obtain ⟨h1, h2, h3, h4, h5, h6, h7, h8, h9, h10⟩ := (Message.eq_iff a b).mp hab
    obtain ⟨g1, g2, g3, g4, g5, g6, g7, g8, g9, g10⟩ := (Message.eq_iff b c).mp hbc
    exact (Message.eq_iff a c).mpr
      ⟨h1.trans g1, h2.trans g2, h3.trans g3, h4.trans g4, h5.trans g5,
       h6.trans g6, h7.trans g7, h8.trans g8, h9.trans g9, h10.trans g10⟩

/-- Witness for C3: `msgA` and `msgB` differ only in timestamp and compare
equal; symmetry applied at them. -/
theorem message_eq_witness : Message.eq msgB msgA = true :=
  (message_eq_iff_fields_and_equivalence msgA msgB msgB).2.2.2.1 (by decide)

/-- C4: constructing with `is_remote_frame=True` always yields an empty
payload, whatever the `data` argument. -/
theorem remote_frame_forces_empty_payload (ts : ℚ) (aid : Nat) (ext : Bool)
    (ef : Bool) (ch : Option String) (dlc : Option Nat)
    (data : Option (List (Fin 256))) (fd bs esi : Bool) :
    (Message.initFields ts aid ext true ef ch dlc data fd bs esi).data = [] := by
  cases data <;> rfl

/-- C5: with `dlc=None` the stored `dlc` is the (normalized) payload length;
with `dlc` supplied it is stored unchanged, even when inconsistent with the
payload length. -/
theorem dlc_defaults_to_payload_length (ts : ℚ) (aid : Nat) (ext : Bool)
    (rf ef : Bool) (ch : Option String) (d : Nat)
    (data : Option (List (Fin 256))) (fd bs esi : Bool) :
    (Message.initFields ts aid ext rf ef ch none data fd bs esi).dlc
        = (Message.initFields ts aid ext rf ef ch none data fd bs esi).data.length ∧
    (Message.initFields ts aid ext rf ef ch (some d) data fd bs esi).dlc = d :=
  ⟨rfl, rfl⟩

/-- C8: formatting with an empty format spec returns the display string;
any non-empty format spec raises `ValueError`. -/
theorem format_empty_ok_nonempty_raises (m : Message) (s : String) :
    Message.format m "" = .ok m.str ∧
    (s ≠ "" → Message.format m s
        = .error (.valueError "non empty format_specs are not supported")) := by
  refine ⟨rfl, fun hs => ?_⟩
  simp [Message.format, hs]

/-- Witness for C8: the non-empty format spec `"x"` raises `ValueError` on
`msgA`. -/
theorem format_witness :
    Message.format msgA "x"
      = .error (.valueError "non empty format_specs are not supported") :=
  (format_empty_ok_nonempty_raises msgA "x").2 (by decide)

/-- C9: the deprecated `id_type` attribute and `is_extended_id` are both
assigned from the `extended_id` argument, hence always agree after
construction. -/
theorem id_type_matches_is_extended_id (ts : ℚ) (aid : Nat) (ext : Bool)
    (rf ef : Bool) (ch : Option String) (dlc : Option Nat)
    (data : Option (List (Fin 256))) (fd bs esi : Bool) :
    (Message.initFields ts aid ext rf ef ch dlc data fd bs esi).id_type
        = (Message.initFields ts aid ext rf ef ch dlc data fd bs esi).is_extended_id :=
  rfl

/-- C6: the payload field of the display string shows exactly
`min(dlc, len(data))` byte groups, each two lowercase hex digits; every
index the loop visits stays below the stored payload length; and the field
is the space-joined groups left-justified to width 24, or exactly 24 spaces
when no bytes are shown. -/
theorem payload_field_shows_min_bytes (m : Message) :
    (dataStrings m).length = min m.dlc m.data.length ∧
    (∀ i ∈ List.range (min m.dlc m.data.length), i < m.data.length) ∧
    (∀ s ∈ dataStrings m, s.length = 2 ∧ ∀ c ∈ s.data, isLowerHex c = true) ∧
    ((dataStrings m).length = 0 → payloadField m = spaces24) ∧
    ((dataStrings m).length ≠ 0 →
      payloadField m = ljust 24 (String.intercalate " " (dataStrings m))) := by
  refine ⟨by simp [dataStrings], ?_, ?_, ?_, ?_⟩
  · intro i hi
    simp only [List.mem_range] at hi
    omega
  · intro s hs
    obtain ⟨i, _, rfl⟩ := List.mem_map.mp hs
    exact ⟨hexByte_length _, hexByte_chars _⟩
  · intro h
    have he : dataStrings m = [] := List.length_eq_zero.mp h
    simp [payloadField, he]
  · intro h
    have he : dataStrings m ≠ [] := fun e => h (by rw [e]; rfl)
    simp only [payloadField]
    rw [if_neg (by simp [List.isEmpty_iff, he])]

/-- The message of the claim instance: `dlc=4` but only two stored payload
bytes. -/
def msgC6 : Message :=
  Message.initFields 0 0x123 false false false none (some 4) (some [0xab, 0xcd])
    false false false

/-- Witness for C6: on a message with `dlc=4` and payload `ab cd`, the loop
index 0 is in bounds, the shown group `ab` is two lowercase hex digits, and
the payload field is the 24-wide left-justified join. -/
theorem payload_field_witness :
    0 < msgC6.data.length ∧
    ("ab".length = 2 ∧ ∀ c ∈ "ab".data, isLowerHex c = true) ∧
    payloadField msgC6 = ljust 24 (String.intercalate " " (dataStrings msgC6)) :=
  ⟨(payload_field_shows_min_bytes msgC6).2.1 0 (by decide),
   (payload_field_shows_min_bytes msgC6).2.2.1 "ab" (by decide),
   (payload_field_shows_min_bytes msgC6).2.2.2.2 (by decide)⟩

/-- C10: with an empty stored payload, `bytearray().isalnum()` is false, so
the quoted decoded-payload field is never appended: the field list is
exactly the five fixed fields (with the 24-space payload field) plus the
optional channel field. -/
theorem empty_payload_omits_quoted_suffix (m : Message) (h : m.data = []) :
    pyIsAlnum m.data = false ∧ alnumFields m = [] ∧
    strFields m = [tsField m, aidField m, flagField m, dlcField m, spaces24]
        ++ channelFields m := by
  have halnum : pyIsAlnum m.data = false := by rw [h]; rfl
  have hfields : alnumFields m = [] := by simp [alnumFields, halnum]
  have hpay : payloadField m = spaces24 := by
    simp [payloadField, dataStrings, h]
  exact ⟨halnum, hfields, by simp [strFields, hfields, hpay]⟩

/-- A message with `data=None` (hence empty payload), a channel and an
inconsistent `dlc`. -/
def msgEmpty : Message :=
  Message.initFields 3 7 true false false (some "vcan0") (some 5) none
    false false false

/-- Witness for C10 at `msgEmpty`. -/
theorem empty_payload_witness :
    pyIsAlnum msgEmpty.data = false ∧ alnumFields msgEmpty = [] ∧
    strFields msgEmpty
        = [tsField msgEmpty, aidField msgEmpty, flagField msgEmpty,
           dlcField msgEmpty, spaces24] ++ channelFields msgEmpty :=
  empty_payload_omits_quoted_suffix msgEmpty (by decide)

/-- The message constructed as `Message(bitrate_switch=True)`: all other
arguments left at their defaults, in particular `is_fd=False`. -/
def c7msg : Message :=
  Message.initFields 0 0 true false false none none none false true false

set_option maxRecDepth 100000 in
/-- Counterexample to C7: the claim says every explicitly non-default field
appears textually in the debug representation, including `bitrate_switch`
when constructed true.  But `Message.__repr__` appends the FD flags only
under `if self.is_fd:`, so for `Message(bitrate_switch=True)` the stored
flag is true yet the repr string does not mention `bitrate_switch` (nor
`error_state_indicator`) at all. -/
theorem repr_omits_true_bitrate_switch :
    c7msg.bitrate_switch = true ∧ c7msg.is_fd = false ∧
    Message.init 0 0 true false false none none none false true false false
        = .ok c7msg ∧
    strContains c7msg.reprStr "bitrate_switch" = false ∧
    strContains c7msg.reprStr "error_state_indicator" = false := by
  refine ⟨rfl, rfl, rfl, ?_, ?_⟩ <;> decide

/-- C7 as amended: every explicitly non-default field appears textually in
the debug representation, except that `bitrate_switch` and
`error_state_indicator` (together with `is_fd`) appear only when `is_fd` is
true; when `is_fd` is false the argument list consists exactly of the
non-FD entries. -/
theorem repr_lists_fields_fd_gated (m : Message) :
    ("timestamp=" ++ pyFloatRepr m.timestamp) ∈ reprArgs m ∧
    ("arbitration_id=" ++ hexLit m.arbitration_id) ∈ reprArgs m ∧
    ("extended_id=" ++ pyBool m.is_extended_id) ∈ reprArgs m ∧
    (m.is_remote_frame = true → "is_remote_frame=True" ∈ reprArgs m) ∧
    (m.is_error_frame = true → "is_error_frame=True" ∈ reprArgs m) ∧
    (∀ ch, m.channel = some ch → ("channel=" ++ pyStrRepr ch) ∈ reprArgs m) ∧
    ("dlc=" ++ toString m.dlc) ∈ reprArgs m ∧
    ("data=[" ++ String.intercalate ", " (m.data.map hexLitByte) ++ "]") ∈ reprArgs m ∧
    (m.is_fd = true →
      "is_fd=True" ∈ reprArgs m ∧
      ("bitrate_switch=" ++ pyBool m.bitrate_switch) ∈ reprArgs m ∧
      ("error_state_indicator=" ++ pyBool m.error_state_indicator) ∈ reprArgs m) ∧
    (m.is_fd = false → reprArgs m =
      ["timestamp=" ++ pyFloatRepr m.timestamp,
       "arbitration_id=" ++ hexLit m.arbitration_id,
       "extended_id=" ++ pyBool m.is_extended_id]
      ++ (if m.is_remote_frame then ["is_remote_frame=True"] else [])
      ++ (if m.is_error_frame then ["is_error_frame=True"] else [])
      ++ channelArgs m
      ++ ["dlc=" ++ toString m.dlc,
          "data=[" ++ String.intercalate ", " (m.data.map hexLitByte) ++ "]"]) := by
  obtain ⟨ts, aid, idt, ext, rf, ef, ch, fd, bs, esi, data, dlc⟩ := m
  cases rf <;> cases ef <;> cases fd <;> cases ch <;>
    simp [reprArgs, channelArgs, pyBool]

/-- An FD message with channel, used to witness the conditional conjuncts
of the amended C7. -/
def msgFd : Message :=
  Message.initFields 0 3 true false false (some "can0") none (some [1])
    true true false

/-- Witness for the amended C7 at `msgFd`: the FD flags and the channel
argument all appear. -/
theorem repr_lists_fields_witness :
    "is_fd=True" ∈ reprArgs msgFd ∧
    ("bitrate_switch=" ++ pyBool msgFd.bitrate_switch) ∈ reprArgs msgFd ∧
    ("channel=" ++ pyStrRepr "can0") ∈ reprArgs msgFd :=
  ⟨((repr_lists_fields_fd_gated msgFd).2.2.2.2.2.2.2.2.1 rfl).1,
   ((repr_lists_fields_fd_gated msgFd).2.2.2.2.2.2.2.2.1 rfl).2.1,
   (repr_lists_fields_fd_gated msgFd).2.2.2.2.2.1 "can0" rfl⟩
